import Mathlib

/-!
Verification of the trust-establishment core of a FastAPI LTI 1.3 tool.

The development shallowly embeds the Python sources:
`app/core/config.py`, `app/core/lti13_validator.py`,
`app/services/lti13_grade_service.py`, `app/services/grade_service.py`
and the role-mapping loop of `app/api/routes/lti13.py`.

External effects (network fetches, RSA signature checks, PyJWT claim
validation, `xml.etree.ElementTree` parsing) are modelled as explicit
inputs: the outcome of each library call is an argument to the embedded
function, and the embedded function reproduces the source's control flow
on those outcomes.
-/

namespace LtiTool

/-- JSON claim values, restricted to the shapes the embedded code inspects:
strings, integers, and string arrays (a multi-valued `aud`). -/
inductive JValue where
  | str (s : String)
  | num (n : Int)
  | arr (l : List String)
  | null
deriving DecidableEq

/-- A decoded JWT payload: a JSON object modelled as an association list
with unique keys (a Python `dict`). -/
abbrev Payload := List (String × JValue)

/-- Python `payload.get(k)` / the `k in payload` test. -/
def pget (p : Payload) (k : String) : Option JValue :=
  match p with
  | [] => none
  | (k', v) :: rest => if k' = k then some v else pget rest k

/-- Python `payload[k] = v` (used by `dict.update`): replace the binding if
the key is present, otherwise append it. -/
def pset (p : Payload) (k : String) (v : JValue) : Payload :=
  match p with
  | [] => [(k, v)]
  | (k', v') :: rest => if k' = k then (k, v) :: rest else (k', v') :: pset rest k v

/-- Python `payload.get(k, d)` for the integer claims `exp` and `iat`
(the source assumes numeric values for these claims). -/
def pgetInt (p : Payload) (k : String) (d : Int) : Int :=
  match pget p k with
  | some (JValue.num n) => n
  | _ => d

/-- Python `needle in hay` over the characters of two strings. -/
def charsContain (needle : List Char) : List Char → Bool
  | [] => needle.isEmpty
  | c :: rest => needle.isPrefixOf (c :: rest) || charsContain needle rest

/-- Python substring containment `needle in hay`. -/
def strContains (hay needle : String) : Bool :=
  charsContain needle.data hay.data

/-- Python `str.lower()` (ASCII case folding, sufficient for the
configuration strings the code lowercases). -/
def strLower (s : String) : String :=
  String.mk (s.data.map Char.toLower)

/-- The configuration fields of `app/core/config.py` that the verified
core reads. -/
structure Settings where
  DEBUG : Bool
  LTI_CLIENT_ID : String
  LTI_DEPLOYMENT_ID : String
  LTI_TOOL_URL : String
  LTI_PLATFORM_ISSUER : String
  LTI_PLATFORM_TOKEN_URL : String
  LTI_PLATFORM_JWKS_URL : String
  LTI_KEY_ID : String
deriving DecidableEq

/-- The process environment, as `os.getenv` sees it. -/
def Env := String → Option String

/-- Python `os.getenv(key, dflt)`. -/
def getenv (env : Env) (key dflt : String) : String :=
  (env key).getD dflt

/-- `app.core.config.Settings`: every field default mirrors `config.py`;
in particular `DEBUG = os.getenv("DEBUG", "true").lower() == "true"`. -/
def mkSettings (env : Env) : Settings :=
  { DEBUG := strLower (getenv env "DEBUG" "true") == "true"
  , LTI_CLIENT_ID := getenv env "LTI_CLIENT_ID" "CHANGE_ME_MOODLE_WILL_PROVIDE_THIS"
  , LTI_DEPLOYMENT_ID := getenv env "LTI_DEPLOYMENT_ID" "CHANGE_ME_MOODLE_WILL_PROVIDE_THIS"
  , LTI_TOOL_URL := getenv env "LTI_TOOL_URL" "http://localhost:8000"
  , LTI_PLATFORM_ISSUER := getenv env "LTI_PLATFORM_ISSUER" "CHANGE_ME_MOODLE_WILL_PROVIDE_THIS"
  , LTI_PLATFORM_TOKEN_URL := getenv env "LTI_PLATFORM_TOKEN_URL" "CHANGE_ME_MOODLE_WILL_PROVIDE_THIS"
  , LTI_PLATFORM_JWKS_URL := getenv env "LTI_PLATFORM_JWKS_URL" "CHANGE_ME_MOODLE_WILL_PROVIDE_THIS"
  , LTI_KEY_ID := getenv env "LTI_KEY_ID" "lti-key-1" }

/-- The settings produced when none of the relevant environment variables
is set: the repository's default configuration. -/
def defaultSettings : Settings := mkSettings (fun _ => none)

/-- `app.models.lti.LTIRole`. -/
inductive LTIRole where
  | administrator
  | instructor
  | learner
  | teachingAssistant
  | contentDeveloper
  | mentor
  | member
deriving DecidableEq

/-- The IRI value of each `LTIRole` enum member in `app/models/lti.py`. -/
def LTIRole.value : LTIRole → String
  | .administrator => "http://purl.imsglobal.org/vocab/lis/v2/institution/person#Administrator"
  | .instructor => "http://purl.imsglobal.org/vocab/lis/v2/membership#Instructor"
  | .learner => "http://purl.imsglobal.org/vocab/lis/v2/membership#Learner"
  | .teachingAssistant => "http://purl.imsglobal.org/vocab/lis/v2/membership/Instructor#TeachingAssistant"
  | .contentDeveloper => "http://purl.imsglobal.org/vocab/lis/v2/membership#ContentDeveloper"
  | .mentor => "http://purl.imsglobal.org/vocab/lis/v2/membership#Mentor"
  | .member => "http://purl.imsglobal.org/vocab/lis/v2/membership#Member"

/-- The role-mapping branch of `lti13_launch` (`app/api/routes/lti13.py`,
lines 201-211): substring containment, first match wins in the order
Instructor, Learner, Administrator, TeachingAssistant; otherwise Member. -/
def roleOf (roleUri : String) : LTIRole :=
  if strContains roleUri "Instructor" then .instructor
  else if strContains roleUri "Learner" then .learner
  else if strContains roleUri "Administrator" then .administrator
  else if strContains roleUri "TeachingAssistant" then .teachingAssistant
  else .member

/-- The `user_roles` list accumulated by the launch loop: one appended role
per element of the roles claim. -/
def mapRoles (rolesClaim : List String) : List LTIRole :=
  rolesClaim.map roleOf

/-- The result dict built by `validate_lti_message`: exactly the keys
`valid`, `errors`, `warnings` (it carries no payload). -/
structure ValidationResult13 where
  valid : Bool
  errors : List String
  warnings : List String
deriving DecidableEq

/-- `required_claims` of `validate_lti_message`. -/
def requiredClaims : List String :=
  [ "iss", "aud", "exp", "iat", "nonce"
  , "https://purl.imsglobal.org/spec/lti/claim/message_type"
  , "https://purl.imsglobal.org/spec/lti/claim/version"
  , "https://purl.imsglobal.org/spec/lti/claim/deployment_id" ]

/-- `supported_types` of `validate_lti_message`. -/
def supportedMessageTypes : List String :=
  ["LtiResourceLinkRequest", "LtiDeepLinkingRequest", "LtiSubmissionReviewRequest"]

/-- Python `str(...)` of an optional claim value, as interpolated into the
error and warning messages (`None` for a missing claim). -/
def pyShow : Option JValue → String
  | none => "None"
  | some (JValue.str s) => s
  | some (JValue.num n) => toString n
  | some (JValue.arr l) => toString l
  | some JValue.null => "None"

/-- The `errors` list accumulated by `validate_lti_message`
(`app/core/lti13_validator.py`, lines 154-212), in append order:
missing required claims, deployment-id mismatch, expired `exp`,
future `iat` beyond 60 seconds. -/
def ltiMessageErrors (s : Settings) (now : Int) (p : Payload) : List String :=
  let missing := requiredClaims.filter (fun c => (pget p c).isNone)
  (if missing.isEmpty then [] else ["Missing required claims: " ++ toString missing])
    ++ (if pget p "https://purl.imsglobal.org/spec/lti/claim/deployment_id"
            = some (JValue.str s.LTI_DEPLOYMENT_ID) then []
        else ["Invalid deployment ID: "
              ++ pyShow (pget p "https://purl.imsglobal.org/spec/lti/claim/deployment_id")])
    ++ (if pgetInt p "exp" 0 < now then ["Token has expired"] else [])
    ++ (if pgetInt p "iat" 0 > now + 60 then ["Token issued in the future"] else [])

/-- The `warnings` list accumulated by `validate_lti_message`, in append
order: version mismatch, unsupported message type, target-link mismatch. -/
def ltiMessageWarnings (s : Settings) (p : Payload) : List String :=
  let ltiVersion := pget p "https://purl.imsglobal.org/spec/lti/claim/version"
  let messageType := pget p "https://purl.imsglobal.org/spec/lti/claim/message_type"
  let mtSupported :=
    match messageType with
    | some (JValue.str t) => supportedMessageTypes.contains t
    | _ => false
  (if ltiVersion = some (JValue.str "1.3.0") then []
   else ["LTI version " ++ pyShow ltiVersion ++ " may not be fully supported"])
    ++ (if mtSupported then []
        else ["Message type " ++ pyShow messageType ++ " may not be fully supported"])
    ++ (match pget p "https://purl.imsglobal.org/spec/lti/claim/target_link_uri" with
        | some (JValue.str u) =>
            if u != "" && !(u.startsWith s.LTI_TOOL_URL) then
              ["Target link URI doesn\x27t match tool URL: " ++ u]
            else []
        | _ => [])

/-- `validate_lti_message`: accumulates errors and warnings over all
checks and sets `valid := len(errors) == 0`. -/
def validate_lti_message (s : Settings) (now : Int) (p : Payload) : ValidationResult13 :=
  { valid := (ltiMessageErrors s now p).length == 0
  , errors := ltiMessageErrors s now p
  , warnings := ltiMessageWarnings s p }

/-- The decoded (unverified) JWT header: the code reads only `kid`. -/
structure JwtHeader where
  kid : Option String
deriving DecidableEq

/-- One JWK entry of a platform key set: the code reads only `kid` and
`use` (the RSA material itself is abstracted by the `sigOk` oracle). -/
structure KeyData where
  kid : Option String
  use : Option String
deriving DecidableEq

/-- A platform JWKS document, `{"keys": [...]}`. -/
structure Jwks where
  keys : List KeyData
deriving DecidableEq

/-- Python truthiness of the optional `kid` header: absent or the empty
string is falsy. -/
def kidTruthy : Option String → Bool
  | some s => s != ""
  | none => false

/-- The key-selection loop of `validate_jwt_token` (lines 109-115): with a
truthy `kid`, pick the first key whose `kid` matches; otherwise pick the
first key tagged `use == "sig"`. -/
def selectKey (kid : Option String) : List KeyData → Option KeyData
  | [] => none
  | k :: rest =>
    if kidTruthy kid then
      if k.kid = kid then some k else selectKey kid rest
    else
      if k.use = some "sig" then some k else selectKey kid rest

/-- Python `str(...)` of the optional `kid`, for the no-matching-key
error message. -/
def pyShowOptStr : Option String → String
  | none => "None"
  | some s => s

/-- Outcome of the verified PyJWT decode, classified by the exception the
library raises (or none). -/
inductive DecodeOutcome where
  | ok
  | expiredSignature
  | invalidAudience
  | invalidIssuer
  | invalidSignature
deriving DecidableEq

/-- Whether PyJWT judges the `exp` claim expired: a numeric `exp` strictly
in the past (a missing `exp` is not checked). -/
def expExpired (p : Payload) (now : Int) : Bool :=
  match pget p "exp" with
  | some (JValue.num e) => decide (e < now)
  | _ => false

/-- Whether PyJWT judges the `aud` claim to match the expected audience:
a string `aud` must equal it, an array `aud` must contain it. -/
def audMatches (p : Payload) (aud : String) : Bool :=
  match pget p "aud" with
  | some (JValue.str a) => a == aud
  | some (JValue.arr l) => l.contains aud
  | _ => false

/-- Whether the `iss` claim equals the expected issuer string. -/
def issMatches (p : Payload) (iss : String) : Bool :=
  pget p "iss" == some (JValue.str iss)

/-- Model of PyJWT `jwt.decode(token, key, algorithms=["RS256"],
audience=aud, issuer=iss)`: the signature is checked first, then `exp`,
then `aud`, then `iss`; the first failure raises. -/
def jwtDecodeVerified (sigValid : Bool) (now : Int) (p : Payload)
    (aud iss : String) : DecodeOutcome :=
  if !sigValid then .invalidSignature
  else if expExpired p now then .expiredSignature
  else if !audMatches p aud then .invalidAudience
  else if !issMatches p iss then .invalidIssuer
  else .ok

/-- The two result-dict shapes `validate_jwt_token` returns:
`{"valid": True, "payload": ..., "warnings": [...]}` or
`{"valid": False, "error": "..."}` (a single error string, no list). -/
inductive JwtResult where
  | ok (payload : Payload) (warnings : List String)
  | err (error : String)
deriving DecidableEq

/-- The issuer string read from the `iss` claim (`payload["iss"]`; the
source would fail on a non-string `iss` inside `get_platform_jwks`). -/
def issuerString : JValue → String
  | JValue.str s => s
  | _ => ""

/-- `audience or settings.LTI_CLIENT_ID` (Python `or`: an absent or empty
audience argument falls back to the configured client id). -/
def effectiveAudience (s : Settings) : Option String → String
  | some a => if a == "" then s.LTI_CLIENT_ID else a
  | none => s.LTI_CLIENT_ID

/-- `validate_jwt_token` (`app/core/lti13_validator.py`, lines 75-152).
`fetchJwks` stands for `self.get_platform_jwks` (issuer to resolved key
set) and `sigOk` for whether the token's RS256 signature verifies under a
given key; each raised exception maps to the error string of the
corresponding `except` branch. -/
def validate_jwt_token (s : Settings) (header : JwtHeader) (payload : Payload)
    (fetchJwks : String → Jwks) (sigOk : KeyData → Bool) (now : Int)
    (audience : Option String) : JwtResult :=
  match pget payload "iss" with
  | none => .err "Missing issuer (iss) in JWT"
  | some issV =>
    match pget payload "aud" with
    | none => .err "Missing audience (aud) in JWT"
    | some _ =>
      if (fetchJwks (issuerString issV)).keys.isEmpty then
        if s.DEBUG then
          .ok payload ["Signature verification skipped in debug mode"]
        else
          .err "No public keys available for signature verification"
      else
        match selectKey header.kid (fetchJwks (issuerString issV)).keys with
        | none => .err ("No matching public key found for kid: " ++ pyShowOptStr header.kid)
        | some key =>
          match jwtDecodeVerified (sigOk key) now payload
              (effectiveAudience s audience) (issuerString issV) with
          | .ok => .ok payload []
          | .expiredSignature => .err "Token expired"
          | .invalidAudience => .err "Invalid audience: Audience doesn\x27t match"
          | .invalidIssuer => .err "Invalid issuer: Invalid issuer"
          | .invalidSignature => .err "Invalid signature"

/-- One entry of `self.platform_jwks_cache`:
`{"jwks": ..., "timestamp": time.time()}`. -/
structure CacheEntry where
  jwks : Jwks
  timestamp : Int
deriving DecidableEq

/-- `self.platform_jwks_cache`: a dict from platform issuer to entry. -/
abbrev JwksCache := List (String × CacheEntry)

/-- Dict lookup on the JWKS cache. -/
def cacheLookup (c : JwksCache) (iss : String) : Option CacheEntry :=
  match c with
  | [] => none
  | (i, e) :: rest => if i = iss then some e else cacheLookup rest iss

/-- Dict assignment on the JWKS cache: replace the entry if the issuer is
present, otherwise append it. -/
def cacheInsert (c : JwksCache) (iss : String) (e : CacheEntry) : JwksCache :=
  match c with
  | [] => [(iss, e)]
  | (i, e') :: rest =>
    if i = iss then (iss, e) :: rest else (i, e') :: cacheInsert rest iss e

/-- `self.cache_expiry = 3600` (seconds). -/
def cache_expiry : Int := 3600

/-- Outcome of the remote JWKS fetch
(`requests.get` + `raise_for_status` + `response.json()`): either a parsed
key set or any raised exception. -/
inductive FetchOutcome where
  | success (jwks : Jwks)
  | failure
deriving DecidableEq

/-- The JWKS URL chosen by `get_platform_jwks` (lines 51-55). -/
def jwksUrl (s : Settings) (issuer : String) : String :=
  if strContains (strLower issuer) "moodle" || issuer == s.LTI_PLATFORM_ISSUER then
    s.LTI_PLATFORM_JWKS_URL
  else
    issuer ++ "/.well-known/jwks.json"

/-- The fetch branch of `get_platform_jwks` (`app/core/lti13_validator.py`,
lines 57-73): a successful fetch stores the key set under the issuer with
the current timestamp; a failed fetch returns `{"keys": []}` and leaves
the cache untouched. The result triple is the returned key set, the cache
after the call, and the number of network fetch attempts performed. -/
def fetchJwksRemote (s : Settings) (cache : JwksCache) (now : Int)
    (fetch : String → FetchOutcome) (issuer : String) :
    Jwks × JwksCache × Nat :=
  match fetch (jwksUrl s issuer) with
  | .success j => (j, cacheInsert cache issuer ⟨j, now⟩, 1)
  | .failure => (⟨[]⟩, cache, 1)

/-- `get_platform_jwks`, dispatch between cache hit and remote fetch. -/
def get_platform_jwks (s : Settings) (cache : JwksCache) (now : Int)
    (fetch : String → FetchOutcome) (issuer : String) :
    Jwks × JwksCache × Nat :=
  match cacheLookup cache issuer with
  | some e =>
    if now - e.timestamp < cache_expiry then (e.jwks, cache, 0)
    else fetchJwksRemote s cache now fetch issuer
  | none => fetchJwksRemote s cache now fetch issuer

/-- The mutable slot pair of `LTI13GradeService`:
`self.access_token` and `self.token_expiry`. -/
structure TokenState where
  access_token : Option String
  token_expiry : Option Int
deriving DecidableEq

/-- The parsed JSON body of a successful token-endpoint response; the code
reads `access_token` (required) and `expires_in` (defaulted to 3600). -/
structure TokenResponse where
  access_token : String
  expires_in : Option Int
deriving DecidableEq

/-- Outcome of the token-endpoint POST: a parsed response, or any raised
exception (transport error, non-2xx status, missing field). -/
inductive TokenFetchOutcome where
  | success (r : TokenResponse)
  | failure (msg : String)
deriving DecidableEq

/-- The `client_assertion_payload` dict built by `get_access_token`
(`app/services/lti13_grade_service.py`, lines 30-35). -/
def clientAssertionPayload (s : Settings) (now : Int) : Payload :=
  [ ("iss", JValue.str s.LTI_CLIENT_ID)
  , ("sub", JValue.str s.LTI_CLIENT_ID)
  , ("aud", JValue.str s.LTI_PLATFORM_TOKEN_URL)
  , ("jti", JValue.str ("lti-service-token-" ++ toString now)) ]

/-- The `payload.update({...})` step of `create_tool_jwt`
(`app/core/lti13_validator.py`, lines 217-223): it overwrites `iss` with
the tool URL and `aud` with the platform issuer, and sets `iat`/`exp`
(one hour after issuance). -/
def create_tool_jwt_payload (s : Settings) (now : Int) (p : Payload) : Payload :=
  pset (pset (pset (pset p "iss" (JValue.str s.LTI_TOOL_URL))
      "aud" (JValue.str s.LTI_PLATFORM_ISSUER))
      "iat" (JValue.num now))
      "exp" (JValue.num (now + 3600))

/-- The claims of the client-assertion JWT actually sent to the token
endpoint: the grade-service payload after `create_tool_jwt`'s update. -/
def sentClientAssertion (s : Settings) (now : Int) : Payload :=
  create_tool_jwt_payload s now (clientAssertionPayload s now)

/-- Python truthiness of `self.access_token` (absent or empty is falsy). -/
def truthyOptStr : Option String → Bool
  | some s => s != ""
  | none => false

/-- Python truthiness of `self.token_expiry` (absent or zero is falsy). -/
def truthyOptInt : Option Int → Bool
  | some n => n != 0
  | none => false

/-- The token-request branch of `get_access_token`
(`app/services/lti13_grade_service.py`, lines 28-64): returns the token
(or the message of the raised `ValueError`), the state after the call,
and the number of token-endpoint requests issued; a failed request leaves
both cache slots unchanged. -/
def requestNewToken (st : TokenState) (now : Int)
    (fetch : TokenFetchOutcome) : Except String String × TokenState × Nat :=
  match fetch with
  | .success r =>
    (Except.ok r.access_token,
     { access_token := some r.access_token
     , token_expiry := some (now + r.expires_in.getD 3600) }, 1)
  | .failure m => (Except.error ("Token request failed: " ++ m), st, 1)

/-- `get_access_token` (`app/services/lti13_grade_service.py`, lines
21-64): the cached token is returned, with no request, whenever both
slots are truthy and `now < token_expiry`; otherwise a token-endpoint
request carrying `sentClientAssertion s now` as its client assertion is
issued. -/
def get_access_token (s : Settings) (st : TokenState) (now : Int)
    (fetch : TokenFetchOutcome) : Except String String × TokenState × Nat :=
  if truthyOptStr st.access_token && truthyOptInt st.token_expiry then
    match st.access_token, st.token_expiry with
    | some tok, some e =>
      if now < e then (Except.ok tok, st, 0)
      else requestNewToken st now fetch
    | _, _ => requestNewToken st now fetch
  else requestNewToken st now fetch

/-- A sequence of `get_access_token` calls, each with its own clock value
and token-endpoint outcome; returns the final state and the total number
of token-endpoint requests issued. -/
def runTokenCalls (s : Settings) :
    TokenState → List (Int × TokenFetchOutcome) → TokenState × Nat
  | st, [] => (st, 0)
  | st, (t, f) :: rest =>
    let step := get_access_token s st t f
    let next := runTokenCalls s step.2.1 rest
    (next.1, step.2.2 + next.2)

mutual
/-- An `xml.etree.ElementTree` element: tag, text, child elements.
Namespace-qualified tags are modelled by their local names. -/
inductive XmlElem where
  | mk (tag : String) (text : Option String) (children : XmlForest)
/-- A list of sibling XML elements, in document order. -/
inductive XmlForest where
  | nil
  | cons (e : XmlElem) (rest : XmlForest)
end

/-- Tag of an element. -/
def XmlElem.tag : XmlElem → String
  | .mk t _ _ => t

/-- Text of an element (`None` for an empty element). -/
def XmlElem.text : XmlElem → Option String
  | .mk _ tx _ => tx

/-- Children of an element. -/
def XmlElem.children : XmlElem → XmlForest
  | .mk _ _ cs => cs

mutual
/-- `element.find(".//tag")` below a single element: first matching strict
descendant in document order. -/
def findDescElem (tag : String) : XmlElem → Option XmlElem
  | .mk _ _ cs => findDescForest tag cs
/-- `element.find(".//tag")` over a forest of subtrees. -/
def findDescForest (tag : String) : XmlForest → Option XmlElem
  | .nil => none
  | .cons e rest =>
    if e.tag = tag then some e
    else
      match findDescElem tag e with
      | some r => some r
      | none => findDescForest tag rest
end

/-- Outcome of `ET.fromstring(response.text)`: a parsed root element or a
raised `ET.ParseError` carrying its message. -/
inductive XmlParse where
  | malformed (msg : String)
  | parsed (root : XmlElem)

/-- The fields of a `requests.Response` that `_parse_outcomes_response`
reads; `parsedText` is the outcome of `ET.fromstring` on `text`. -/
structure HttpResponse where
  status_code : Nat
  text : String
  parsedText : XmlParse

/-- The result dict built by `_parse_outcomes_response`; optional fields
model keys the code may leave unset. -/
structure OutcomesResult where
  success : Bool
  status_code : Nat
  response_body : String
  error : Option String := none
  code : Option String := none
  code_major : Option String := none
  severity : Option String := none
  description : Option String := none
deriving DecidableEq

/-- `_parse_outcomes_response` (`app/services/grade_service.py`, lines
156-190). `Except.error` models an exception the function does not catch
(only `ET.ParseError` is caught): a found `imsx_codeMajor` element with no
text makes `result["code_major"].lower()` raise `AttributeError`. -/
def parse_outcomes_response (resp : HttpResponse) : Except String OutcomesResult :=
  let base : OutcomesResult :=
    { success := false, status_code := resp.status_code, response_body := resp.text }
  if resp.status_code ≠ 200 then
    .ok { base with
          error := some ("HTTP " ++ toString resp.status_code)
        , code := some "HTTP_ERROR" }
  else
    match resp.parsedText with
    | .malformed msg =>
      .ok { base with
            error := some ("XML Parse Error: " ++ msg)
          , code := some "XML_PARSE_ERROR" }
    | .parsed root =>
      match findDescForest "imsx_statusInfo" root.children with
      | none => .ok base
      | some si =>
        let codeMajorVal : Option String :=
          match findDescForest "imsx_codeMajor" si.children with
          | some e => e.text
          | none => some "unknown"
        let severityVal : Option String :=
          match findDescForest "imsx_severity" si.children with
          | some e => e.text
          | none => some "unknown"
        let descriptionVal : Option String :=
          match findDescForest "imsx_description" si.children with
          | some e => e.text
          | none => some "No description"
        match codeMajorVal with
        | none => .error "AttributeError: NoneType object has no attribute lower"
        | some cm =>
          .ok { base with
                code_major := some cm
              , severity := severityVal
              , description := descriptionVal
              , success := strLower cm == "success" }

/-! ### Claim C5: role mapping -/

/-- Claim C5 counterexample: the canonical LIS TeachingAssistant IRI (the
value of `LTIRole.TEACHING_ASSISTANT` in `app/models/lti.py`) contains the
substring `Instructor`, so the launch loop maps it to Instructor, not to
TeachingAssistant as the claim states. -/
theorem claim5_canonical_ta_counterexample :
    roleOf LTIRole.teachingAssistant.value = LTIRole.instructor
    ∧ LTIRole.instructor ≠ LTIRole.teachingAssistant := by
  decide

/-- Claim C5 (amended): each role IRI maps to exactly one role (one role
appended per list element) by substring containment with first match
winning in the order Instructor, Learner, Administrator,
TeachingAssistant, Member otherwise; an IRI whose only matching keyword is
`TeachingAssistant` maps to TeachingAssistant (the canonical LIS
TeachingAssistant IRI instead maps to Instructor, see the counterexample);
and a list containing an Instructor IRI and a Learner IRI maps to a role
list containing both roles, independently of input order. -/
theorem claim5_role_mapping :
    (∀ l : List String, (mapRoles l).length = l.length)
    ∧ (∀ u, strContains u "Instructor" = true → roleOf u = LTIRole.instructor)
    ∧ (∀ u, strContains u "Instructor" = false → strContains u "Learner" = true →
        roleOf u = LTIRole.learner)
    ∧ (∀ u, strContains u "Instructor" = false → strContains u "Learner" = false →
        strContains u "Administrator" = true → roleOf u = LTIRole.administrator)
    ∧ (∀ u, strContains u "Instructor" = false → strContains u "Learner" = false →
        strContains u "Administrator" = false → strContains u "TeachingAssistant" = true →
        roleOf u = LTIRole.teachingAssistant)
    ∧ (∀ u, strContains u "Instructor" = false → strContains u "Learner" = false →
        strContains u "Administrator" = false → strContains u "TeachingAssistant" = false →
        roleOf u = LTIRole.member)
    ∧ (∀ (l : List String) (u₁ u₂ : String), u₁ ∈ l → u₂ ∈ l →
        roleOf u₁ = LTIRole.instructor → roleOf u₂ = LTIRole.learner →
        LTIRole.instructor ∈ mapRoles l ∧ LTIRole.learner ∈ mapRoles l)
    ∧ (∀ l l' : List String, l.Perm l' → ∀ r : LTIRole, r ∈ mapRoles l ↔ r ∈ mapRoles l') := by
  refine ⟨?_, ?_, ?_, ?_, ?_, ?_, ?_, ?_⟩
  · intro l; simp [mapRoles]
  · intro u h; simp [roleOf, h]
  · intro u h1 h2; simp [roleOf, h1, h2]
  · intro u h1 h2 h3; simp [roleOf, h1, h2, h3]
  · intro u h1 h2 h3 h4; simp [roleOf, h1, h2, h3, h4]
  · intro u h1 h2 h3 h4; simp [roleOf, h1, h2, h3, h4]
  · intro l u₁ u₂ h1 h2 h3 h4
    exact ⟨h3 ▸ List.mem_map_of_mem roleOf h1, h4 ▸ List.mem_map_of_mem roleOf h2⟩
  · intro l l' hperm r
    exact (hperm.map roleOf).mem_iff

/-- Witness for C5: concrete role IRIs exercising the amended theorem. -/
theorem claim5_role_mapping_witness :
    roleOf "http://purl.imsglobal.org/vocab/lis/v2/membership#TeachingAssistant"
        = LTIRole.teachingAssistant
    ∧ (LTIRole.instructor ∈ mapRoles
          [ "http://purl.imsglobal.org/vocab/lis/v2/membership#Learner"
          , "http://purl.imsglobal.org/vocab/lis/v2/membership#Instructor" ]
        ∧ LTIRole.learner ∈ mapRoles
          [ "http://purl.imsglobal.org/vocab/lis/v2/membership#Learner"
          , "http://purl.imsglobal.org/vocab/lis/v2/membership#Instructor" ]) :=
  ⟨ claim5_role_mapping.2.2.2.2.1 _ (by decide) (by decide) (by decide) (by decide)
  , claim5_role_mapping.2.2.2.2.2.2.1
      [ "http://purl.imsglobal.org/vocab/lis/v2/membership#Learner"
      , "http://purl.imsglobal.org/vocab/lis/v2/membership#Instructor" ]
      "http://purl.imsglobal.org/vocab/lis/v2/membership#Instructor"
      "http://purl.imsglobal.org/vocab/lis/v2/membership#Learner"
      (by decide) (by decide) (by decide) (by decide) ⟩

/-! ### Claim C1: the client-assertion JWT sent to the token endpoint -/

/-- Claim C1 (code bug): `get_access_token` builds the client-assertion
payload with `iss = sub = LTI_CLIENT_ID` and `aud =
LTI_PLATFORM_TOKEN_URL`, exactly as the claim states, but `create_tool_jwt`
then overwrites `iss` with `LTI_TOOL_URL` and `aud` with
`LTI_PLATFORM_ISSUER` before signing. Evaluated at the default
configuration at time 1000: the assertion actually sent carries
`iss = "http://localhost:8000"` (not the client id) and
`aud = LTI_PLATFORM_ISSUER` (not the token endpoint), while `sub` keeps
the client id and `exp` is 3600 seconds after issuance. -/
theorem claim1_assertion_fields_overwritten :
    pget (clientAssertionPayload defaultSettings 1000) "iss"
        = some (JValue.str defaultSettings.LTI_CLIENT_ID)
    ∧ pget (clientAssertionPayload defaultSettings 1000) "aud"
        = some (JValue.str defaultSettings.LTI_PLATFORM_TOKEN_URL)
    ∧ pget (sentClientAssertion defaultSettings 1000) "iss"
        = some (JValue.str "http://localhost:8000")
    ∧ pget (sentClientAssertion defaultSettings 1000) "iss"
        ≠ some (JValue.str defaultSettings.LTI_CLIENT_ID)
    ∧ pget (sentClientAssertion defaultSettings 1000) "aud"
        = some (JValue.str defaultSettings.LTI_PLATFORM_ISSUER)
    ∧ pget (sentClientAssertion defaultSettings 1000) "sub"
        = some (JValue.str defaultSettings.LTI_CLIENT_ID)
    ∧ pget (sentClientAssertion defaultSettings 1000) "jti"
        = some (JValue.str "lti-service-token-1000")
    ∧ pget (sentClientAssertion defaultSettings 1000) "iat" = some (JValue.num 1000)
    ∧ pget (sentClientAssertion defaultSettings 1000) "exp" = some (JValue.num 4600) := by
  decide

/-! ### Claim C2: empty key set, debug fallback, default configuration -/

/-- Claim C2 counterexample: in the default configuration (no environment
variables set), `DEBUG = os.getenv("DEBUG", "true").lower() == "true"` is
true, so the insecure unverified fallback IS enabled by default,
contradicting the claim's final conjunct. -/
theorem claim2_debug_enabled_by_default : defaultSettings.DEBUG = true := by
  decide

/-- Claim C2 (amended): when the issuer of an inbound token resolves to an
empty key set, `validate_jwt_token` returns an invalid result if
`settings.DEBUG` is false, and when `DEBUG` is true it returns a valid
result tagged with the warning `"Signature verification skipped in debug
mode"`; however the flag IS enabled in the default configuration
(`DEBUG` defaults to `"true"`). -/
theorem claim2_empty_keyset_policy :
    (∀ (s : Settings) (hdr : JwtHeader) (p : Payload) (fetchJwks : String → Jwks)
        (sigOk : KeyData → Bool) (now : Int) (audience : Option String)
        (i : String) (v : JValue),
      pget p "iss" = some (JValue.str i) → pget p "aud" = some v →
      fetchJwks i = Jwks.mk [] → s.DEBUG = false →
      validate_jwt_token s hdr p fetchJwks sigOk now audience
        = JwtResult.err "No public keys available for signature verification")
    ∧ (∀ (s : Settings) (hdr : JwtHeader) (p : Payload) (fetchJwks : String → Jwks)
        (sigOk : KeyData → Bool) (now : Int) (audience : Option String)
        (i : String) (v : JValue),
      pget p "iss" = some (JValue.str i) → pget p "aud" = some v →
      fetchJwks i = Jwks.mk [] → s.DEBUG = true →
      validate_jwt_token s hdr p fetchJwks sigOk now audience
        = JwtResult.ok p ["Signature verification skipped in debug mode"])
    ∧ defaultSettings.DEBUG = true := by
  refine ⟨?_, ?_, by decide⟩
  · intro s hdr p fetchJwks sigOk now audience i v hiss haud hfetch hdbg
    simp [validate_jwt_token, hiss, haud, issuerString, hfetch, hdbg]
  · intro s hdr p fetchJwks sigOk now audience i v hiss haud hfetch hdbg
    simp [validate_jwt_token, hiss, haud, issuerString, hfetch, hdbg]

/-- Witness for C2: a concrete token whose issuer resolves to an empty key
set, evaluated under a debug-off configuration and under the default
(debug-on) configuration. -/
theorem claim2_empty_keyset_policy_witness :
    validate_jwt_token (mkSettings (fun k => if k = "DEBUG" then some "false" else none))
        ⟨none⟩ [("iss", JValue.str "https://platform"), ("aud", JValue.str "cid")]
        (fun _ => ⟨[]⟩) (fun _ => false) 0 none
      = JwtResult.err "No public keys available for signature verification"
    ∧ validate_jwt_token defaultSettings
        ⟨none⟩ [("iss", JValue.str "https://platform"), ("aud", JValue.str "cid")]
        (fun _ => ⟨[]⟩) (fun _ => false) 0 none
      = JwtResult.ok [("iss", JValue.str "https://platform"), ("aud", JValue.str "cid")]
          ["Signature verification skipped in debug mode"] :=
  ⟨ claim2_empty_keyset_policy.1 _ _ _ _ _ _ _ "https://platform" (JValue.str "cid")
      (by decide) (by decide) rfl (by decide)
  , claim2_empty_keyset_policy.2.1 _ _ _ _ _ _ _ "https://platform" (JValue.str "cid")
      (by decide) (by decide) rfl (by decide) ⟩

/-! ### Claim C3: validation-result invariants and error accumulation -/

/-- Claim C3 counterexample: `validate_jwt_token` does not accumulate
errors. A token missing both `iss` and `aud` yields exactly the same
single-string error result as a token missing only `iss`: the `aud`
failure is never recorded, and the invalid result carries one `error`
string rather than a list of errors. -/
theorem claim3_single_error_counterexample :
    validate_jwt_token defaultSettings ⟨none⟩ []
        (fun _ => ⟨[]⟩) (fun _ => false) 0 none
      = JwtResult.err "Missing issuer (iss) in JWT"
    ∧ validate_jwt_token defaultSettings ⟨none⟩ [("aud", JValue.str "cid")]
        (fun _ => ⟨[]⟩) (fun _ => false) 0 none
      = JwtResult.err "Missing issuer (iss) in JWT" := by
  constructor <;> rfl

/-- Claim C3 (amended): `validate_lti_message` accumulates errors and its
`valid` flag is true exactly when its error list is empty (so `valid =
false` implies a non-empty error list); two independently failing checks
(deployment-id mismatch and expired token) are both recorded. Its valid
result carries no payload. `validate_jwt_token`, by contrast, stops at the
first failing check and returns a single error string, and its valid
result carries the (necessarily non-empty) verified payload. -/
theorem claim3_result_invariants :
    (∀ (s : Settings) (now : Int) (p : Payload),
        (validate_lti_message s now p).valid = true
          ↔ (validate_lti_message s now p).errors = [])
    ∧ (∀ (s : Settings) (now : Int) (p : Payload) (e : Int),
        pget p "https://purl.imsglobal.org/spec/lti/claim/deployment_id"
            ≠ some (JValue.str s.LTI_DEPLOYMENT_ID) →
        pget p "exp" = some (JValue.num e) → e < now →
        ("Invalid deployment ID: "
            ++ pyShow (pget p "https://purl.imsglobal.org/spec/lti/claim/deployment_id"))
            ∈ (validate_lti_message s now p).errors
          ∧ "Token has expired" ∈ (validate_lti_message s now p).errors
          ∧ (validate_lti_message s now p).valid = false)
    ∧ (∀ (s : Settings) (hdr : JwtHeader) (p : Payload) (fetchJwks : String → Jwks)
        (sigOk : KeyData → Bool) (now : Int) (audience : Option String)
        (q : Payload) (w : List String),
        validate_jwt_token s hdr p fetchJwks sigOk now audience = JwtResult.ok q w →
        q ≠ []) := by
  refine ⟨?_, ?_, ?_⟩
  · intro s now p
    simp [validate_lti_message, beq_iff_eq, List.length_eq_zero]
  · intro s now p e hdep hexp hlt
    have hexpInt : pgetInt p "exp" 0 = e := by simp [pgetInt, hexp]
    have hmem : "Token has expired" ∈ ltiMessageErrors s now p := by
      simp [ltiMessageErrors, hexpInt, hlt]
    refine ⟨?_, hmem, ?_⟩
    · simp [validate_lti_message, ltiMessageErrors, hdep]
    · have hne : ltiMessageErrors s now p ≠ [] := List.ne_nil_of_mem hmem
      simp only [validate_lti_message]
      simp [beq_iff_eq, List.length_eq_zero, hne]
  · intro s hdr p fetchJwks sigOk now aud q w h
    have hq : q = p := by
      unfold validate_jwt_token at h
      split at h
      · exact absurd h (by simp)
      · split at h
        · exact absurd h (by simp)
        · split at h
          · split at h
            · injection h with h1 h2; exact h1.symm
            · exact absurd h (by simp)
          · split at h
            · exact absurd h (by simp)
            · split at h
              · injection h with h1 h2; exact h1.symm
              · exact absurd h (by simp)
              · exact absurd h (by simp)
              · exact absurd h (by simp)
              · exact absurd h (by simp)
    subst hq
    intro hnil
    subst hnil
    unfold validate_jwt_token at h
    simp [pget] at h

/-- Witness for C3: a concrete payload failing both the deployment-id and
the expiry check under the default settings, and a concrete token
validated successfully in debug mode. -/
theorem claim3_result_invariants_witness :
    ("Invalid deployment ID: bad"
        ∈ (validate_lti_message defaultSettings 100
            [ ("https://purl.imsglobal.org/spec/lti/claim/deployment_id", JValue.str "bad")
            , ("exp", JValue.num 90) ]).errors
      ∧ "Token has expired"
        ∈ (validate_lti_message defaultSettings 100
            [ ("https://purl.imsglobal.org/spec/lti/claim/deployment_id", JValue.str "bad")
            , ("exp", JValue.num 90) ]).errors
      ∧ (validate_lti_message defaultSettings 100
            [ ("https://purl.imsglobal.org/spec/lti/claim/deployment_id", JValue.str "bad")
            , ("exp", JValue.num 90) ]).valid = false)
    ∧ [("iss", JValue.str "https://platform"), ("aud", JValue.str "cid")] ≠ ([] : Payload) :=
  ⟨ claim3_result_invariants.2.1 defaultSettings 100
      [ ("https://purl.imsglobal.org/spec/lti/claim/deployment_id", JValue.str "bad")
      , ("exp", JValue.num 90) ] 90 (by decide) (by decide) (by decide)
  , claim3_result_invariants.2.2 defaultSettings ⟨none⟩
      [("iss", JValue.str "https://platform"), ("aud", JValue.str "cid")]
      (fun _ => ⟨[]⟩) (fun _ => false) 0 none
      [("iss", JValue.str "https://platform"), ("aud", JValue.str "cid")]
      ["Signature verification skipped in debug mode"] (by decide) ⟩

/-! ### Claim C8: expired tokens are rejected with a distinguishable error -/

/-- Claim C8 (confirmed): a token whose numeric `exp` lies strictly in the
past is rejected on both paths. `validate_lti_message` records the error
`"Token has expired"` and sets `valid = false`; `validate_jwt_token`, for
a token that reaches signature verification (issuer and audience claims
present, a key selected, signature valid), returns the invalid result
`{"valid": False, "error": "Token expired"}` — in both cases the
expired-token category is distinguishable from every other error. -/
theorem claim8_expired_token :
    (∀ (s : Settings) (now : Int) (p : Payload) (e : Int),
        pget p "exp" = some (JValue.num e) → e < now →
        "Token has expired" ∈ (validate_lti_message s now p).errors
          ∧ (validate_lti_message s now p).valid = false)
    ∧ (∀ (s : Settings) (hdr : JwtHeader) (p : Payload) (fetchJwks : String → Jwks)
        (sigOk : KeyData → Bool) (now : Int) (audience : Option String)
        (i : String) (v : JValue) (key : KeyData) (e : Int),
        pget p "iss" = some (JValue.str i) → pget p "aud" = some v →
        selectKey hdr.kid (fetchJwks i).keys = some key →
        sigOk key = true →
        pget p "exp" = some (JValue.num e) → e < now →
        validate_jwt_token s hdr p fetchJwks sigOk now audience
          = JwtResult.err "Token expired") := by
  constructor
  · intro s now p e hexp hlt
    have hexpInt : pgetInt p "exp" 0 = e := by simp [pgetInt, hexp]
    have hmem : "Token has expired" ∈ ltiMessageErrors s now p := by
      simp [ltiMessageErrors, hexpInt, hlt]
    refine ⟨hmem, ?_⟩
    have hne : ltiMessageErrors s now p ≠ [] := List.ne_nil_of_mem hmem
    simp only [validate_lti_message]
    simp [beq_iff_eq, List.length_eq_zero, hne]
  · intro s hdr p fetchJwks sigOk now audience i v key e hiss haud hsel hsig hexp hlt
    have hkeys : (fetchJwks i).keys ≠ [] := by
      intro hnil
      rw [hnil] at hsel
      exact absurd hsel (by simp [selectKey])
    have hdecode : jwtDecodeVerified (sigOk key) now p
        (effectiveAudience s audience) i = DecodeOutcome.expiredSignature := by
      simp [jwtDecodeVerified, hsig, expExpired, hexp, hlt]
    simp [validate_jwt_token, hiss, haud, issuerString, hkeys, hsel, hdecode,
      List.isEmpty_iff]

/-- Witness for C8: a concrete token with `exp = now - 10` on both paths. -/
theorem claim8_expired_token_witness :
    ("Token has expired"
        ∈ (validate_lti_message defaultSettings 1000 [("exp", JValue.num 990)]).errors
      ∧ (validate_lti_message defaultSettings 1000 [("exp", JValue.num 990)]).valid = false)
    ∧ validate_jwt_token defaultSettings ⟨some "k1"⟩
        [ ("iss", JValue.str "https://platform"), ("aud", JValue.str "cid")
        , ("exp", JValue.num 990) ]
        (fun _ => ⟨[⟨some "k1", some "sig"⟩]⟩) (fun _ => true) 1000 none
      = JwtResult.err "Token expired" :=
  ⟨ claim8_expired_token.1 defaultSettings 1000 [("exp", JValue.num 990)] 990
      (by decide) (by decide)
  , claim8_expired_token.2 defaultSettings ⟨some "k1"⟩
      [ ("iss", JValue.str "https://platform"), ("aud", JValue.str "cid")
      , ("exp", JValue.num 990) ]
      (fun _ => ⟨[⟨some "k1", some "sig"⟩]⟩) (fun _ => true) 1000 none
      "https://platform" (JValue.str "cid") ⟨some "k1", some "sig"⟩ 990
      (by decide) (by decide) (by decide) (by decide) (by decide) (by decide) ⟩

/-! ### Claim C6: JWKS cache TTL -/

/-- Dict assignment then lookup on the JWKS cache returns the new entry. -/
theorem cacheLookup_cacheInsert_self (c : JwksCache) (iss : String) (e : CacheEntry) :
    cacheLookup (cacheInsert c iss e) iss = some e := by
  induction c with
  | nil => simp [cacheInsert, cacheLookup]
  | cons hd tl ih =>
    obtain ⟨i, e'⟩ := hd
    by_cases hi : i = iss
    · simp [cacheInsert, cacheLookup, hi]
    · simp [cacheInsert, cacheLookup, hi, ih]

/-- Claim C6 (confirmed): a cached key set is served (with zero fetches)
exactly while `now - timestamp < 3600`; a stale or missing entry plus a
successful fetch performs exactly one fetch and overwrites the issuer's
entry; a second lookup within the TTL window after a successful fetch at
`now` performs zero fetches; and whenever a call performs zero fetches the
served entry was fresh. -/
theorem claim6_jwks_cache_ttl :
    (∀ (s : Settings) (c : JwksCache) (now : Int) (f : String → FetchOutcome)
        (iss : String) (e : CacheEntry),
      cacheLookup c iss = some e → now - e.timestamp < cache_expiry →
      get_platform_jwks s c now f iss = (e.jwks, c, 0))
    ∧ (∀ (s : Settings) (c : JwksCache) (now : Int) (f : String → FetchOutcome)
        (iss : String) (j : Jwks),
      (cacheLookup c iss = none
        ∨ ∃ e, cacheLookup c iss = some e ∧ cache_expiry ≤ now - e.timestamp) →
      f (jwksUrl s iss) = FetchOutcome.success j →
      get_platform_jwks s c now f iss = (j, cacheInsert c iss ⟨j, now⟩, 1)
        ∧ cacheLookup (cacheInsert c iss ⟨j, now⟩) iss = some ⟨j, now⟩)
    ∧ (∀ (s : Settings) (c : JwksCache) (now t : Int) (g : String → FetchOutcome)
        (iss : String) (j : Jwks),
      t - now < cache_expiry →
      get_platform_jwks s (cacheInsert c iss ⟨j, now⟩) t g iss
        = (j, cacheInsert c iss ⟨j, now⟩, 0))
    ∧ (∀ (s : Settings) (c : JwksCache) (now : Int) (f : String → FetchOutcome)
        (iss : String) (jw : Jwks) (c' : JwksCache),
      get_platform_jwks s c now f iss = (jw, c', 0) →
      ∃ e, cacheLookup c iss = some e ∧ now - e.timestamp < cache_expiry
        ∧ jw = e.jwks ∧ c' = c) := by
  refine ⟨?_, ?_, ?_, ?_⟩
  · intro s c now f iss e hlook hfresh
    simp [get_platform_jwks, hlook, hfresh]
  · intro s c now f iss j hmiss hfetch
    refine ⟨?_, cacheLookup_cacheInsert_self c iss ⟨j, now⟩⟩
    rcases hmiss with hnone | ⟨e, hsome, hstale⟩
    · simp [get_platform_jwks, hnone, fetchJwksRemote, hfetch]
    · have hnf : ¬(now - e.timestamp < cache_expiry) := not_lt.mpr hstale
      simp [get_platform_jwks, hsome, hnf, fetchJwksRemote, hfetch]
  · intro s c now t g iss j hfresh
    simp [get_platform_jwks, cacheLookup_cacheInsert_self, hfresh]
  · intro s c now f iss jw c' h
    unfold get_platform_jwks at h
    split at h
    next e heq =>
      split at h
      next hfresh =>
        simp only [Prod.mk.injEq] at h
        exact ⟨e, heq, hfresh, h.1.symm, h.2.1.symm⟩
      next hstale =>
        exact absurd h (by
          intro hc
          unfold fetchJwksRemote at hc
          split at hc <;> simp at hc)
    next heq =>
      exact absurd h (by
        intro hc
        unfold fetchJwksRemote at hc
        split at hc <;> simp at hc)

/-- Witness for C6: a concrete cache exercising the fresh-hit, the
stale-refresh and the refreshed-hit cases. -/
theorem claim6_jwks_cache_ttl_witness :
    get_platform_jwks defaultSettings [("https://p", ⟨⟨[]⟩, 0⟩)] 3599
        (fun _ => FetchOutcome.failure) "https://p" = (⟨[]⟩, [("https://p", ⟨⟨[]⟩, 0⟩)], 0)
    ∧ get_platform_jwks defaultSettings [("https://p", ⟨⟨[]⟩, 0⟩)] 3600
        (fun _ => FetchOutcome.success ⟨[⟨some "k1", some "sig"⟩]⟩) "https://p"
      = (⟨[⟨some "k1", some "sig"⟩]⟩,
         [("https://p", ⟨⟨[⟨some "k1", some "sig"⟩]⟩, 3600⟩)], 1)
    ∧ get_platform_jwks defaultSettings
        [("https://p", ⟨⟨[⟨some "k1", some "sig"⟩]⟩, 3600⟩)] 7199
        (fun _ => FetchOutcome.failure) "https://p"
      = (⟨[⟨some "k1", some "sig"⟩]⟩,
         [("https://p", ⟨⟨[⟨some "k1", some "sig"⟩]⟩, 3600⟩)], 0) :=
  ⟨ claim6_jwks_cache_ttl.1 defaultSettings [("https://p", ⟨⟨[]⟩, 0⟩)] 3599
      (fun _ => FetchOutcome.failure) "https://p" ⟨⟨[]⟩, 0⟩ (by decide) (by decide)
  , (claim6_jwks_cache_ttl.2.1 defaultSettings [("https://p", ⟨⟨[]⟩, 0⟩)] 3600
      (fun _ => FetchOutcome.success ⟨[⟨some "k1", some "sig"⟩]⟩) "https://p"
      ⟨[⟨some "k1", some "sig"⟩]⟩
      (Or.inr ⟨⟨⟨[]⟩, 0⟩, by decide, by decide⟩) rfl).1
  , claim6_jwks_cache_ttl.1 defaultSettings
      [("https://p", ⟨⟨[⟨some "k1", some "sig"⟩]⟩, 3600⟩)] 7199
      (fun _ => FetchOutcome.failure) "https://p"
      ⟨⟨[⟨some "k1", some "sig"⟩]⟩, 3600⟩ (by decide) (by decide) ⟩

/-! ### Claim C9: failed fetches are not cached -/

/-- Claim C9 (confirmed): when the remote fetch fails, `get_platform_jwks`
returns `{"keys": []}` and the cache is unchanged (no entry is written for
the issuer, whether it was absent or stale), so any subsequent call for an
issuer with no cache entry attempts the fetch again. -/
theorem claim9_failed_fetch_not_cached :
    (∀ (s : Settings) (c : JwksCache) (now : Int) (f : String → FetchOutcome)
        (iss : String),
      cacheLookup c iss = none → f (jwksUrl s iss) = FetchOutcome.failure →
      get_platform_jwks s c now f iss = (⟨[]⟩, c, 1))
    ∧ (∀ (s : Settings) (c : JwksCache) (now : Int) (f : String → FetchOutcome)
        (iss : String) (e : CacheEntry),
      cacheLookup c iss = some e → cache_expiry ≤ now - e.timestamp →
      f (jwksUrl s iss) = FetchOutcome.failure →
      get_platform_jwks s c now f iss = (⟨[]⟩, c, 1))
    ∧ (∀ (s : Settings) (c : JwksCache) (now' : Int) (g : String → FetchOutcome)
        (iss : String),
      cacheLookup c iss = none →
      (get_platform_jwks s c now' g iss).2.2 = 1) := by
  refine ⟨?_, ?_, ?_⟩
  · intro s c now f iss hnone hfail
    simp [get_platform_jwks, hnone, fetchJwksRemote, hfail]
  · intro s c now f iss e hsome hstale hfail
    have hnf : ¬(now - e.timestamp < cache_expiry) := not_lt.mpr hstale
    simp [get_platform_jwks, hsome, hnf, fetchJwksRemote, hfail]
  · intro s c now' g iss hnone
    cases hg : g (jwksUrl s iss) with
    | success j => simp [get_platform_jwks, hnone, fetchJwksRemote, hg]
    | failure => simp [get_platform_jwks, hnone, fetchJwksRemote, hg]

/-- Witness for C9: a failed fetch for an unknown issuer leaves the cache
empty and a retry fetches again. -/
theorem claim9_failed_fetch_not_cached_witness :
    get_platform_jwks defaultSettings [] 100
        (fun _ => FetchOutcome.failure) "https://p" = (⟨[]⟩, [], 1)
    ∧ (get_platform_jwks defaultSettings [] 200
        (fun _ => FetchOutcome.success ⟨[⟨some "k1", some "sig"⟩]⟩) "https://p").2.2 = 1 :=
  ⟨ claim9_failed_fetch_not_cached.1 defaultSettings [] 100
      (fun _ => FetchOutcome.failure) "https://p" rfl rfl
  , claim9_failed_fetch_not_cached.2.2 defaultSettings [] 200
      (fun _ => FetchOutcome.success ⟨[⟨some "k1", some "sig"⟩]⟩) "https://p" rfl ⟩

/-! ### Claim C7: access-token reuse -/

/-- Any number of `get_access_token` calls made while a truthy cached
token is unexpired return it without issuing a request or changing
state. -/
theorem runTokenCalls_cached (s : Settings) (tok : String) (e : Int)
    (htok : tok ≠ "") (he : e ≠ 0) :
    ∀ calls : List (Int × TokenFetchOutcome), (∀ c ∈ calls, c.1 < e) →
    runTokenCalls s ⟨some tok, some e⟩ calls = (⟨some tok, some e⟩, 0) := by
  intro calls
  induction calls with
  | nil => intro _; rfl
  | cons hd tl ih =>
    obtain ⟨t, f⟩ := hd
    intro hall
    have hhd : t < e := hall (t, f) (by simp)
    have hstep : get_access_token s ⟨some tok, some e⟩ t f
        = (Except.ok tok, ⟨some tok, some e⟩, 0) := by
      simp [get_access_token, truthyOptStr, truthyOptInt, htok, he, hhd]
    have htl : ∀ c ∈ tl, c.1 < e := fun c hc => hall c (by simp [hc])
    simp [runTokenCalls, hstep, ih htl]

/-- Claim C7 (confirmed): while both cache slots are truthy and the clock
is before the expiry, `get_access_token` returns the cached token with
zero token-endpoint requests and unchanged state; a run of N calls whose
first call succeeds and whose remaining calls all happen before the
resulting expiry issues exactly one request in total; and a call made at
or after the cached expiry issues a request. -/
theorem claim7_token_reuse :
    (∀ (s : Settings) (st : TokenState) (now : Int) (f : TokenFetchOutcome)
        (tok : String) (e : Int),
      st.access_token = some tok → tok ≠ "" →
      st.token_expiry = some e → e ≠ 0 → now < e →
      get_access_token s st now f = (Except.ok tok, st, 0))
    ∧ (∀ (s : Settings) (t0 : Int) (r : TokenResponse)
        (rest : List (Int × TokenFetchOutcome)),
      r.access_token ≠ "" → t0 + r.expires_in.getD 3600 ≠ 0 →
      (∀ c ∈ rest, c.1 < t0 + r.expires_in.getD 3600) →
      runTokenCalls s ⟨none, none⟩ ((t0, TokenFetchOutcome.success r) :: rest)
        = (⟨some r.access_token, some (t0 + r.expires_in.getD 3600)⟩, 1))
    ∧ (∀ (s : Settings) (st : TokenState) (now : Int) (f : TokenFetchOutcome)
        (tok : String) (e : Int),
      st.access_token = some tok → st.token_expiry = some e → e ≤ now →
      (get_access_token s st now f).2.2 = 1) := by
  refine ⟨?_, ?_, ?_⟩
  · intro s st now f tok e htok htokne hexp hene hlt
    obtain ⟨a, b⟩ := st
    cases htok; cases hexp
    simp [get_access_token, truthyOptStr, truthyOptInt, htokne, hene, hlt]
  · intro s t0 r rest hne hexpne hall
    have hfirst : get_access_token s ⟨none, none⟩ t0 (TokenFetchOutcome.success r)
        = (Except.ok r.access_token,
           ⟨some r.access_token, some (t0 + r.expires_in.getD 3600)⟩, 1) := by
      simp [get_access_token, truthyOptStr, truthyOptInt, requestNewToken]
    simp [runTokenCalls, hfirst, runTokenCalls_cached s r.access_token
      (t0 + r.expires_in.getD 3600) hne hexpne rest hall]
  · intro s st now f tok e htok hexp hge
    obtain ⟨a, b⟩ := st
    cases htok; cases hexp
    have hnl : ¬(now < e) := not_lt.mpr hge
    unfold get_access_token
    by_cases htr : (truthyOptStr (some tok) && truthyOptInt (some e)) = true
    · rw [if_pos htr]
      simp only [hnl, if_false]
      unfold requestNewToken
      split <;> rfl
    · rw [if_neg htr]
      unfold requestNewToken
      split <;> rfl

/-- Witness for C7: a first call at time 0 obtaining a token that expires
at 100, two further calls before the expiry (one of them a would-be
failing fetch that is never issued), and a call at the expiry instant that
does issue a request. -/
theorem claim7_token_reuse_witness :
    runTokenCalls defaultSettings ⟨none, none⟩
        [ (0, TokenFetchOutcome.success ⟨"tok", some 100⟩)
        , (50, TokenFetchOutcome.failure "down")
        , (99, TokenFetchOutcome.failure "down") ]
      = (⟨some "tok", some 100⟩, 1)
    ∧ (get_access_token defaultSettings ⟨some "tok", some 100⟩ 100
        (TokenFetchOutcome.failure "down")).2.2 = 1 :=
  ⟨ claim7_token_reuse.2.1 defaultSettings 0 ⟨"tok", some 100⟩
      [(50, TokenFetchOutcome.failure "down"), (99, TokenFetchOutcome.failure "down")]
      (by decide) (by decide) (by decide)
  , claim7_token_reuse.2.2 defaultSettings ⟨some "tok", some 100⟩ 100
      (TokenFetchOutcome.failure "down") "tok" 100 rfl rfl (by decide) ⟩

/-! ### Claim C4: outcomes-response parsing -/

/-- An HTTP 201 outcomes response whose body carries
`imsx_codeMajor = success`. -/
def resp201Success : HttpResponse :=
  { status_code := 201
  , text := "ignored"
  , parsedText := XmlParse.parsed (XmlElem.mk "imsx_POXEnvelopeResponse" none
      (XmlForest.cons (XmlElem.mk "imsx_statusInfo" none
        (XmlForest.cons (XmlElem.mk "imsx_codeMajor" (some "success") XmlForest.nil)
          XmlForest.nil)) XmlForest.nil)) }

/-- Claim C4 counterexample: the parser branches on `status_code != 200`,
not on "non-2xx". A 201 response whose body says `codeMajor = success` is
reported as `HTTP_ERROR` with `success = false`, where the claim demands
`success = true` for a 2xx status with a success `codeMajor`. -/
theorem claim4_status201_counterexample :
    parse_outcomes_response resp201Success
      = Except.ok { success := false, status_code := 201, response_body := "ignored"
                  , error := some "HTTP 201", code := some "HTTP_ERROR" } := by
  rfl

/-- Claim C4 (amended): a status other than exactly 200 yields
`success = false` with code `HTTP_ERROR`; a 200 status whose XML parses
and carries a status block with a non-empty `codeMajor` text yields
`success = true` iff that text equals `"success"` case-insensitively, with
the text retained verbatim in `code_major`; malformed XML on a 200 status
yields code `XML_PARSE_ERROR`; in all three cases the function returns a
structured result and no exception propagates. -/
theorem claim4_outcomes_parsing :
    (∀ resp : HttpResponse, resp.status_code ≠ 200 →
      parse_outcomes_response resp = Except.ok
        { success := false, status_code := resp.status_code
        , response_body := resp.text
        , error := some ("HTTP " ++ toString resp.status_code)
        , code := some "HTTP_ERROR" })
    ∧ (∀ (resp : HttpResponse) (root si cm : XmlElem) (txt : String),
      resp.status_code = 200 → resp.parsedText = XmlParse.parsed root →
      findDescForest "imsx_statusInfo" root.children = some si →
      findDescForest "imsx_codeMajor" si.children = some cm →
      cm.text = some txt →
      parse_outcomes_response resp = Except.ok
        { success := strLower txt == "success"
        , status_code := 200, response_body := resp.text
        , code_major := some txt
        , severity :=
            (match findDescForest "imsx_severity" si.children with
             | some e => e.text
             | none => some "unknown")
        , description :=
            (match findDescForest "imsx_description" si.children with
             | some e => e.text
             | none => some "No description") })
    ∧ (∀ (resp : HttpResponse) (m : String),
      resp.status_code = 200 → resp.parsedText = XmlParse.malformed m →
      parse_outcomes_response resp = Except.ok
        { success := false, status_code := 200, response_body := resp.text
        , error := some ("XML Parse Error: " ++ m)
        , code := some "XML_PARSE_ERROR" }) := by
  refine ⟨?_, ?_, ?_⟩
  · intro resp hne
    simp [parse_outcomes_response, hne]
  · intro resp root si cm txt h200 hparsed hsi hcm htxt
    simp [parse_outcomes_response, h200, hparsed, hsi, hcm, htxt]
  · intro resp m h200 hmal
    simp [parse_outcomes_response, h200, hmal]

/-- Witness for C4: a 404 response, a 200 response carrying
`codeMajor = failure` (retained verbatim, `success = false`), and a 200
response with malformed XML. -/
theorem claim4_outcomes_parsing_witness :
    parse_outcomes_response ⟨404, "gone", XmlParse.malformed "x"⟩
      = Except.ok { success := false, status_code := 404, response_body := "gone"
                  , error := some "HTTP 404", code := some "HTTP_ERROR" }
    ∧ parse_outcomes_response
        ⟨200, "body", XmlParse.parsed (XmlElem.mk "imsx_POXEnvelopeResponse" none
          (XmlForest.cons (XmlElem.mk "imsx_statusInfo" none
            (XmlForest.cons (XmlElem.mk "imsx_codeMajor" (some "failure") XmlForest.nil)
              XmlForest.nil)) XmlForest.nil))⟩
      = Except.ok { success := false, status_code := 200, response_body := "body"
                  , code_major := some "failure", severity := some "unknown"
                  , description := some "No description" }
    ∧ parse_outcomes_response ⟨200, "<broken", XmlParse.malformed "not well-formed"⟩
      = Except.ok { success := false, status_code := 200, response_body := "<broken"
                  , error := some "XML Parse Error: not well-formed"
                  , code := some "XML_PARSE_ERROR" } :=
  ⟨ claim4_outcomes_parsing.1 ⟨404, "gone", XmlParse.malformed "x"⟩ (by decide)
  , claim4_outcomes_parsing.2.1
      ⟨200, "body", XmlParse.parsed (XmlElem.mk "imsx_POXEnvelopeResponse" none
        (XmlForest.cons (XmlElem.mk "imsx_statusInfo" none
          (XmlForest.cons (XmlElem.mk "imsx_codeMajor" (some "failure") XmlForest.nil)
            XmlForest.nil)) XmlForest.nil))⟩
      (XmlElem.mk "imsx_POXEnvelopeResponse" none
        (XmlForest.cons (XmlElem.mk "imsx_statusInfo" none
          (XmlForest.cons (XmlElem.mk "imsx_codeMajor" (some "failure") XmlForest.nil)
            XmlForest.nil)) XmlForest.nil))
      (XmlElem.mk "imsx_statusInfo" none
        (XmlForest.cons (XmlElem.mk "imsx_codeMajor" (some "failure") XmlForest.nil)
          XmlForest.nil))
      (XmlElem.mk "imsx_codeMajor" (some "failure") XmlForest.nil)
      "failure" rfl rfl rfl rfl rfl
  , claim4_outcomes_parsing.2.2 ⟨200, "<broken", XmlParse.malformed "not well-formed"⟩
      "not well-formed" rfl rfl ⟩

/-! ### Claim C10: a 200 response without a status block -/

/-- Claim C10 (confirmed): a 200 response whose body is well-formed XML
containing no `imsx_statusInfo` descendant yields `success = false` with
no error, no code, and no `code_major`/`severity`/`description`. -/
theorem claim10_missing_status_info :
    ∀ (resp : HttpResponse) (root : XmlElem),
      resp.status_code = 200 → resp.parsedText = XmlParse.parsed root →
      findDescForest "imsx_statusInfo" root.children = none →
      parse_outcomes_response resp = Except.ok
        { success := false, status_code := 200, response_body := resp.text
        , error := none, code := none
        , code_major := none, severity := none, description := none } := by
  intro resp root h200 hparsed hsi
  simp [parse_outcomes_response, h200, hparsed, hsi]

/-- Witness for C10: a concrete 200 response whose XML has no
`imsx_statusInfo` element. -/
theorem claim10_missing_status_info_witness :
    parse_outcomes_response
        ⟨200, "xml", XmlParse.parsed (XmlElem.mk "imsx_POXEnvelopeResponse" none
          (XmlForest.cons (XmlElem.mk "imsx_POXHeader" none XmlForest.nil)
            XmlForest.nil))⟩
      = Except.ok { success := false, status_code := 200, response_body := "xml"
                  , error := none, code := none
                  , code_major := none, severity := none, description := none } :=
  claim10_missing_status_info
    ⟨200, "xml", XmlParse.parsed (XmlElem.mk "imsx_POXEnvelopeResponse" none
      (XmlForest.cons (XmlElem.mk "imsx_POXHeader" none XmlForest.nil)
        XmlForest.nil))⟩
    (XmlElem.mk "imsx_POXEnvelopeResponse" none
      (XmlForest.cons (XmlElem.mk "imsx_POXHeader" none XmlForest.nil)
        XmlForest.nil))
    rfl rfl rfl

end LtiTool
